import Mathlib

/-!
Verification of the MQTT 3.1.1 protocol handler core
(hbmqtt/mqtt/protocol/handler.py, class ProtocolHandler).

The handler is asyncio code; we embed it shallowly.  Mutable session and
handler state becomes the record `HandlerState`, threaded through pure
functions.  Each coroutine flow (`_handle_qos0_message_flow`,
`_handle_qos1_message_flow`, `_handle_qos2_message_flow`, `mqtt_publish`,
`retry_deliveries`, the ack handlers and `mqtt_acknowledge_delivery`)
becomes a function from state to state that also returns the ordered list of
observable events (packets sent, application messages enqueued,
acknowledgements observed, inflight entries removed).

A flow that suspends on an `asyncio.Future` waiter is parametrized by an
`Option MPacket`: `some pkt` means the awaited acknowledgement packet
arrives and the coroutine resumes with it; `none` means the wait is never
completed (the coroutine is still parked there, or `asyncio.wait_for`
cancelled it at that suspension point).  In the `none` case the function
returns the state exactly as it stands at the suspension point, which is the
state a timeout/cancellation leaves behind.

Python dictionaries are modelled as association lists over `Nat` keys with
python-dict update semantics (assignment to an existing key updates it in
place, a new key is appended; `del` removes the key).  Because the Python
code aliases one message object from both a local variable and the inflight
dictionaries, every mutation of a message while it sits in a dictionary is
mirrored here by re-storing the updated message under its key.
-/

/-- MQTT control packets relevant to the message flows.  Mirrors the packet
classes used in handler.py (PublishPacket, PubackPacket, PubrecPacket,
PubrelPacket, PubcompPacket).  The publish constructor carries
(variable-header packet id, topic name, payload, qos, dup flag, retain
flag); a QoS-0 publish has no packet id (`none`). -/
inductive MPacket where
  | publish (packet_id : Option Nat) (topic : String) (payload : List Nat)
      (qos : Nat) (dup : Bool) (retain : Bool)
  | puback (packet_id : Nat)
  | pubrec (packet_id : Nat)
  | pubrel (packet_id : Nat)
  | pubcomp (packet_id : Nat)
deriving DecidableEq, Repr

/-- The four acknowledgement kinds that have waiter registries in
ProtocolHandler (`_puback_waiters`, `_pubrec_waiters`, `_pubrel_waiters`,
`_pubcomp_waiters`). -/
inductive AckKind where
  | puback
  | pubrec
  | pubrel
  | pubcomp
deriving DecidableEq, Repr

/-- An `asyncio.Future` waiter slot: pending, or completed with a result
packet (`set_result`). -/
inductive Waiter where
  | pending
  | done (pkt : MPacket)
deriving DecidableEq, Repr

/-- hbmqtt.session.OutgoingApplicationMessage.  session.py is not part of
the sources; the fields are the ones handler.py reads and writes: identity
fields plus one slot per packet already emitted or received for the flow. -/
structure OutgoingApplicationMessage where
  packet_id : Option Nat
  topic : String
  qos : Nat
  data : List Nat
  retain : Bool
  publish_packet : Option MPacket := none
  puback_packet : Option MPacket := none
  pubrec_packet : Option MPacket := none
  pubrel_packet : Option MPacket := none
  pubcomp_packet : Option MPacket := none
deriving DecidableEq, Repr

/-- hbmqtt.session.IncomingApplicationMessage, with the same packet slots.
`delivery_acknowledged` mirrors the flag set by `acknowledge_delivery`
(modelled from the spec, see `acknowledge_delivery`). -/
structure IncomingApplicationMessage where
  packet_id : Option Nat
  topic : String
  qos : Nat
  data : List Nat
  retain : Bool
  publish_packet : Option MPacket := none
  puback_packet : Option MPacket := none
  pubrec_packet : Option MPacket := none
  pubrel_packet : Option MPacket := none
  pubcomp_packet : Option MPacket := none
  delivery_acknowledged : Bool := false
deriving DecidableEq, Repr

/-- Association-list lookup, i.e. python `d[k]` returning `none` instead of
raising KeyError. -/
def alookup : List (Nat × α) → Nat → Option α
  | [], _ => none
  | (k', v) :: rest, k => if k' = k then some v else alookup rest k

/-- python `k in d`. -/
def amem (m : List (Nat × α)) (k : Nat) : Bool := (alookup m k).isSome

/-- python `d[k] = v`: update in place when the key exists (dict order is
preserved), append otherwise. -/
def ainsert : List (Nat × α) → Nat → α → List (Nat × α)
  | [], k, v => [(k, v)]
  | (k', v') :: rest, k, v =>
      if k' = k then (k, v) :: rest else (k', v') :: ainsert rest k v

/-- python `del d[k]` (keys are unique, so removing the first occurrence
suffices). -/
def aerase : List (Nat × α) → Nat → List (Nat × α)
  | [], _ => []
  | (k', v) :: rest, k => if k' = k then rest else (k', v) :: aerase rest k

/-- Number of entries stored under key `k`; 1 for a present dict key. -/
def acount : List (Nat × α) → Nat → Nat
  | [], _ => 0
  | (k', _) :: rest, k => (if k' = k then 1 else 0) + acount rest k

/-- The mutable state a ProtocolHandler and its Session share: the two
inflight maps, the delivered-message queue, the packet-id counter and the
four waiter registries. -/
structure HandlerState where
  inflight_out : List (Nat × OutgoingApplicationMessage)
  inflight_in : List (Nat × IncomingApplicationMessage)
  delivered_message_queue : List IncomingApplicationMessage
  next_packet_id : Nat
  puback_waiters : List (Nat × Waiter)
  pubrec_waiters : List (Nat × Waiter)
  pubrel_waiters : List (Nat × Waiter)
  pubcomp_waiters : List (Nat × Waiter)
deriving DecidableEq, Repr

/-- `self.session.inflight_out[pid] = m` (also used to mirror mutations of a
message aliased from the dictionary). -/
def setOut (st : HandlerState) (pid : Nat) (m : OutgoingApplicationMessage) :
    HandlerState :=
  { st with inflight_out := ainsert st.inflight_out pid m }

/-- Observable events of a flow, in program order: a packet written to the
stream, an application message put on the delivered-message queue, an
awaited acknowledgement packet delivered to a waiter, an inflight_in entry
deleted. -/
inductive Ev where
  | send (p : MPacket)
  | enqueue (packet_id : Option Nat)
  | ackReceived (p : MPacket)
  | inflightInRemoved (packet_id : Nat)
deriving DecidableEq, Repr

/-- The HBMQTTException raise sites of the flows in handler.py. -/
inductive FlowErr where
  | alreadyAcknowledged
  | duplicateWaiter (k : AckKind)
  | unknownInflight
  | duplicatePacketId
  | unexpectedQos
deriving DecidableEq, Repr

/-- How a flow coroutine ended: returned, raised, or is still parked on a
waiter for acknowledgement kind `k` and packet id `pid` (equivalently, was
cancelled there by a timeout). -/
inductive FlowOutcome where
  | completed
  | raised (e : FlowErr)
  | interrupted (k : AckKind) (pid : Nat)
deriving DecidableEq, Repr

def FlowOutcome.isRaised : FlowOutcome → Bool
  | .raised _ => true
  | _ => false

/-- Result of running an outgoing-message flow: final state, event trace,
outcome, and the message object with its mutations. -/
structure FlowRes where
  st : HandlerState
  tr : List Ev
  out : FlowOutcome
  msg : OutgoingApplicationMessage
deriving DecidableEq, Repr

/-- Result of running an incoming-message flow. -/
structure InFlowRes where
  st : HandlerState
  tr : List Ev
  out : FlowOutcome
  msg : IncomingApplicationMessage
deriving DecidableEq, Repr

/-- For each acknowledgement kind, whether the awaited packet arrives while
the flow is waiting (`some pkt`), or the wait is never completed (`none`). -/
structure ArrivingAcks where
  puback : Option MPacket := none
  pubrec : Option MPacket := none
  pubrel : Option MPacket := none
  pubcomp : Option MPacket := none
deriving DecidableEq, Repr

/-- No acknowledgement ever arrives. -/
def noArrive : ArrivingAcks := {}

/-- Modelled from the spec: session.py's
`ApplicationMessage.build_publish_packet(dup=...)` (session.py is not under
src/).  Per spec section 3, an application message carries packet id, topic,
payload, QoS and retain flag, and the PUBLISH packet for its flow is built
from exactly those fields plus the dup flag. -/
def buildPublishPacket (m : OutgoingApplicationMessage) (dup : Bool) : MPacket :=
  .publish m.packet_id m.topic m.data m.qos dup m.retain

/-- Dup flag of the PUBLISH packet attached to an incoming message
(`app_message.publish_packet.dup_flag`). -/
def msgDupFlag (m : IncomingApplicationMessage) : Bool :=
  match m.publish_packet with
  | some (.publish _ _ _ _ d _) => d
  | _ => false

/-- `_handle_qos0_message_flow`, outgoing branch (handler.py lines 170-174):
build the PUBLISH (dup=False), send it, record it on the message. -/
def qos0OutFlow (st : HandlerState) (m : OutgoingApplicationMessage) : FlowRes :=
  let pub := buildPublishPacket m false
  ⟨st, [Ev.send pub], .completed, { m with publish_packet := some pub }⟩

/-- `_handle_qos0_message_flow`, incoming branch (handler.py lines 175-180):
a set DUP flag is a protocol violation, the message is logged and dropped;
otherwise it goes straight onto the delivered-message queue. -/
def qos0InFlow (st : HandlerState) (m : IncomingApplicationMessage) : InFlowRes :=
  if msgDupFlag m then
    ⟨st, [], .completed, m⟩
  else
    ⟨{ st with delivered_message_queue := st.delivered_message_queue ++ [m] },
      [Ev.enqueue m.packet_id], .completed, m⟩

/-- `_handle_qos1_message_flow`, outgoing branch (handler.py lines 192-215):
raise if already acknowledged; store into inflight_out when absent; send the
PUBLISH (dup=True when one was already sent); register the PUBACK waiter
(note: unconditionally, overwriting any existing entry) and suspend; on
resume delete the waiter, record the PUBACK and delete the inflight entry. -/
def qos1OutFlow (st : HandlerState) (m : OutgoingApplicationMessage)
    (pubackArrive : Option MPacket) : FlowRes :=
  if m.puback_packet.isSome then
    ⟨st, [], .raised .alreadyAcknowledged, m⟩
  else
    let pid := m.packet_id.getD 0
    let st1 := if amem st.inflight_out pid then st else setOut st pid m
    let pub := buildPublishPacket m m.publish_packet.isSome
    let m1 := { m with publish_packet := some pub }
    let st2 := setOut st1 pid m1
    let st3 := { st2 with puback_waiters := ainsert st2.puback_waiters pid .pending }
    match pubackArrive with
    | none => ⟨st3, [Ev.send pub], .interrupted .puback pid, m1⟩
    | some ack =>
        let st4 := { st3 with puback_waiters := aerase st3.puback_waiters pid }
        let m2 := { m1 with puback_packet := some ack }
        let st5 := { st4 with inflight_out := aerase st4.inflight_out pid }
        ⟨st5, [Ev.send pub, Ev.ackReceived ack], .completed, m2⟩

/-- `_handle_qos1_message_flow`, incoming branch (handler.py lines 192,
216-223): raise if already acknowledged; enqueue the message onto the
delivered-message queue, then build and send the PUBACK. -/
def qos1InFlow (st : HandlerState) (m : IncomingApplicationMessage) : InFlowRes :=
  if m.puback_packet.isSome then
    ⟨st, [], .raised .alreadyAcknowledged, m⟩
  else
    let pid := m.packet_id.getD 0
    let st1 := { st with delivered_message_queue := st.delivered_message_queue ++ [m] }
    let pa := MPacket.puback pid
    ⟨st1, [Ev.enqueue m.packet_id, Ev.send pa], .completed,
      { m with puback_packet := some pa }⟩

/-- Phase B of `_handle_qos2_message_flow`, outgoing (handler.py lines
265-276): when no PUBCOMP is recorded yet, rebuild and send the PUBREL,
register the PUBCOMP waiter (unconditionally) and suspend; on resume delete
the waiter and record the PUBCOMP.  Either way the inflight entry is
deleted on completion. -/
def qos2PhaseB (st : HandlerState) (m : OutgoingApplicationMessage)
    (tr : List Ev) (pubcompArrive : Option MPacket) : FlowRes :=
  let pid := m.packet_id.getD 0
  if m.pubcomp_packet.isSome then
    ⟨{ st with inflight_out := aerase st.inflight_out pid }, tr, .completed, m⟩
  else
    let rel := MPacket.pubrel pid
    let m1 := { m with pubrel_packet := some rel }
    let st1 := setOut st pid m1
    -- the PUBREL is sent here, then the waiter is created and awaited
    let st2 := { st1 with pubcomp_waiters := ainsert st1.pubcomp_waiters pid .pending }
    match pubcompArrive with
    | none => ⟨st2, tr ++ [Ev.send rel], .interrupted .pubcomp pid, m1⟩
    | some a =>
        let st3 := { st2 with pubcomp_waiters := aerase st2.pubcomp_waiters pid }
        let m2 := { m1 with pubcomp_packet := some a }
        let st4 := setOut st3 pid m2
        let st5 := { st4 with inflight_out := aerase st4.inflight_out pid }
        ⟨st5, tr ++ [Ev.send rel, Ev.ackReceived a], .completed, m2⟩

/-- `_handle_qos2_message_flow`, outgoing branch (handler.py lines 236-276).
Phase A runs when no PUBREL was emitted yet: on a retry the message must
already be inflight, on a first attempt it is stored; the PUBLISH is sent
(dup=True on retries); a pre-existing PUBREC waiter is a fatal error, else
one is registered and awaited.  Then phase B (`qos2PhaseB`). -/
def qos2OutFlow (st : HandlerState) (m : OutgoingApplicationMessage)
    (pubrecArrive pubcompArrive : Option MPacket) : FlowRes :=
  let pid := m.packet_id.getD 0
  if m.pubrel_packet.isSome && m.pubcomp_packet.isSome then
    ⟨st, [], .raised .alreadyAcknowledged, m⟩
  else if m.pubrel_packet.isSome then
    qos2PhaseB st m [] pubcompArrive
  else if m.publish_packet.isSome && !(amem st.inflight_out pid) then
    ⟨st, [], .raised .unknownInflight, m⟩
  else
    let st1 := if m.publish_packet.isSome then st else setOut st pid m
    let pub := buildPublishPacket m m.publish_packet.isSome
    let m1 := { m with publish_packet := some pub }
    let st2 := setOut st1 pid m1
    -- the PUBLISH is sent here; the waiter-exists check follows the send
    if amem st2.pubrec_waiters pid then
      ⟨st2, [Ev.send pub], .raised (.duplicateWaiter .pubrec), m1⟩
    else
      let st3 := { st2 with pubrec_waiters := ainsert st2.pubrec_waiters pid .pending }
      match pubrecArrive with
      | none => ⟨st3, [Ev.send pub], .interrupted .pubrec pid, m1⟩
      | some a =>
          let st4 := { st3 with pubrec_waiters := aerase st3.pubrec_waiters pid }
          let m2 := { m1 with pubrec_packet := some a }
          let st5 := setOut st4 pid m2
          qos2PhaseB st5 m2 [Ev.send pub, Ev.ackReceived a] pubcompArrive

/-- `_handle_qos2_message_flow`, incoming branch (handler.py lines 277-300):
store into inflight_in; send PUBREC and record it; a pre-existing PUBREL
waiter is a fatal error, else register one and suspend; on resume record the
PUBREL, enqueue the message, delete the inflight_in entry, send PUBCOMP. -/
def qos2InFlow (st : HandlerState) (m : IncomingApplicationMessage)
    (pubrelArrive : Option MPacket) : InFlowRes :=
  let pid := m.packet_id.getD 0
  let st1 := { st with inflight_in := ainsert st.inflight_in pid m }
  let prc := MPacket.pubrec pid
  let m1 := { m with pubrec_packet := some prc }
  let st2 := { st1 with inflight_in := ainsert st1.inflight_in pid m1 }
  if amem st2.pubrel_waiters pid then
    ⟨st2, [Ev.send prc], .raised (.duplicateWaiter .pubrel), m1⟩
  else
    let st3 := { st2 with pubrel_waiters := ainsert st2.pubrel_waiters pid .pending }
    match pubrelArrive with
    | none => ⟨st3, [Ev.send prc], .interrupted .pubrel pid, m1⟩
    | some a =>
        let st4 := { st3 with pubrel_waiters := aerase st3.pubrel_waiters pid }
        let m2 := { m1 with pubrel_packet := some a }
        let st5 := { st4 with inflight_in := ainsert st4.inflight_in pid m2 }
        let st6 := { st5 with delivered_message_queue := st5.delivered_message_queue ++ [m2] }
        let st7 := { st6 with inflight_in := aerase st6.inflight_in pid }
        ⟨st7,
          [Ev.send prc, Ev.ackReceived a, Ev.enqueue m.packet_id,
           Ev.inflightInRemoved pid, Ev.send (MPacket.pubcomp pid)],
          .completed, m2⟩

/-- `_handle_message_flow` for an OutgoingApplicationMessage (handler.py
lines 144-158): dispatch on QoS, raising on any other value. -/
def handle_message_flow_out (st : HandlerState) (m : OutgoingApplicationMessage)
    (acks : ArrivingAcks) : FlowRes :=
  if m.qos = 0 then qos0OutFlow st m
  else if m.qos = 1 then qos1OutFlow st m acks.puback
  else if m.qos = 2 then qos2OutFlow st m acks.pubrec acks.pubcomp
  else ⟨st, [], .raised .unexpectedQos, m⟩

/-- `_handle_message_flow` for an IncomingApplicationMessage. -/
def handle_message_flow_in (st : HandlerState) (m : IncomingApplicationMessage)
    (acks : ArrivingAcks) : InFlowRes :=
  if m.qos = 0 then qos0InFlow st m
  else if m.qos = 1 then qos1InFlow st m
  else if m.qos = 2 then qos2InFlow st m acks.pubrel
  else ⟨st, [], .raised .unexpectedQos, m⟩

/-- The incoming application message `handle_publish` (handler.py lines
506-512) builds from a received PUBLISH packet: identity fields copied from
the packet, `publish_packet` set to the packet itself.  (Only PUBLISH
packets reach `handle_publish`; other constructors yield a dummy.) -/
def incomingOf (pkt : MPacket) : IncomingApplicationMessage :=
  match pkt with
  | .publish pid topic payload qos _ retain =>
      { packet_id := pid, topic := topic, qos := qos, data := payload,
        retain := retain, publish_packet := some pkt }
  | _ =>
      { packet_id := none, topic := "", qos := 0, data := [], retain := false,
        publish_packet := some pkt }

/-- `handle_publish` (handler.py lines 506-512): wrap the packet into an
IncomingApplicationMessage and run `_handle_message_flow`. -/
def handle_publish (st : HandlerState) (pkt : MPacket) (acks : ArrivingAcks) :
    InFlowRes :=
  handle_message_flow_in st (incomingOf pkt) acks

/-- Outcome of an `mqtt_publish` call: the message record on success, an
HBMQTTException reported to the caller, or `asyncio.TimeoutError` from
`asyncio.wait_for`. -/
inductive PublishOutcome where
  | ok (m : OutgoingApplicationMessage)
  | err (e : FlowErr)
  | timedOut
deriving DecidableEq, Repr

/-- Result of `mqtt_publish`: state, event trace, outcome. -/
structure PublishRes where
  st : HandlerState
  tr : List Ev
  result : PublishOutcome
deriving DecidableEq, Repr

/-- The hard-coded overall bound handler.py passes to `asyncio.wait_for`
around `_handle_message_flow` (line 140). -/
def publishOverallTimeoutSeconds : Nat := 10

/-- Modelled from the spec: session.py's `Session.next_packet_id` property
(session.py is not under src/).  Spec section 3: packet ids are 16-bit
values 1..65535 allocated by a monotonic per-session counter; section 9:
the source's allocator wraps without skipping ids still in use.  Reading
the property advances the counter and returns the new value. -/
def nextPacketIdValue (counter : Nat) : Nat := counter % 65535 + 1

/-- `mqtt_publish` (handler.py lines 129-141): for QoS 1/2 allocate a packet
id and raise if it is already inflight; build a fresh
OutgoingApplicationMessage; run `_handle_message_flow` under
`asyncio.wait_for(..., 10)` - a flow still parked on a waiter when the
timeout fires is cancelled there and the call raises TimeoutError. -/
def mqtt_publish (st : HandlerState) (topic : String) (data : List Nat)
    (qos : Nat) (retain : Bool) (acks : ArrivingAcks) : PublishRes :=
  let mk : Option Nat → OutgoingApplicationMessage := fun pid =>
    { packet_id := pid, topic := topic, qos := qos, data := data, retain := retain }
  let finish : FlowRes → PublishRes := fun r =>
    match r.out with
    | .completed => ⟨r.st, r.tr, .ok r.msg⟩
    | .raised e => ⟨r.st, r.tr, .err e⟩
    | .interrupted _ _ => ⟨r.st, r.tr, .timedOut⟩
  if qos = 1 ∨ qos = 2 then
    let pid := nextPacketIdValue st.next_packet_id
    let st1 := { st with next_packet_id := pid }
    if amem st1.inflight_out pid then
      ⟨st1, [], .err .duplicatePacketId⟩
    else
      finish (handle_message_flow_out st1 (mk (some pid)) acks)
  else
    finish (handle_message_flow_out st (mk none) acks)

/-- Modelled from the spec: session.py's
`ApplicationMessage.is_acknowledged` used by `retry_deliveries`
(session.py is not under src/).  Spec section 4.4: a message is
acknowledged when its terminal ACK has been recorded already - the PUBACK
for QoS 1, the PUBCOMP for QoS 2. -/
def isAcknowledged (m : OutgoingApplicationMessage) : Bool :=
  if m.qos = 1 then m.puback_packet.isSome
  else if m.qos = 2 then m.pubcomp_packet.isSome
  else false

/-- Result of `retry_deliveries`: final state, trace, the ids collected for
removal, and - when the walk did not run to completion - the entry whose
flow is still parked on a waiter or raised (`pending`).  In the Python
code that situation means `retry_deliveries` itself is suspended inside
that entry's `_handle_message_flow` call (or propagates its exception), so
the pending removals have not been executed. -/
structure RetryRes where
  st : HandlerState
  tr : List Ev
  ackPackets : List Nat
  pending : Option (Nat × FlowOutcome)
deriving DecidableEq, Repr

/-- One iteration step of the `for packet_id in self.session.inflight_out`
walk of `retry_deliveries` (handler.py lines 108-123), over the list of
entries present when the loop starts.  The message is re-read from the live
map, as `message = self.session.inflight_out[packet_id]` does; a missing
key cannot occur for these ids (earlier flows only ever delete their own,
already visited, id), so that case falls through to the next entry. -/
def retryEntries (acks : Nat → ArrivingAcks) :
    HandlerState → List Ev → List Nat →
    List (Nat × OutgoingApplicationMessage) →
    HandlerState × List Ev × List Nat × Option (Nat × FlowOutcome)
  | st, tr, acked, [] => (st, tr, acked, none)
  | st, tr, acked, (pid, _) :: rest =>
    match alookup st.inflight_out pid with
    | none => retryEntries acks st tr acked rest
    | some m =>
      if isAcknowledged m then
        retryEntries acks st tr (acked ++ [pid]) rest
      else
        let step :=
          if m.pubrec_packet.isSome then (st, tr, m)
          else
            -- PublishPacket.build(topic, data, packet_id, True, qos, retain)
            let pub := buildPublishPacket m true
            let m1 := { m with publish_packet := some pub }
            (setOut st pid m1, tr ++ [Ev.send pub], m1)
        let r := handle_message_flow_out step.1 step.2.2 (acks pid)
        match r.out with
        | .completed => retryEntries acks r.st (step.2.1 ++ r.tr) acked rest
        | o => (r.st, step.2.1 ++ r.tr, acked, some (pid, o))

/-- `retry_deliveries` (handler.py lines 100-127): walk `inflight_out`,
collecting acknowledged entries and re-driving the others through
`_handle_message_flow` (resending a DUP PUBLISH first when no PUBREC was
recorded); once the walk completes, delete the collected entries. -/
def retry_deliveries (st : HandlerState) (acks : Nat → ArrivingAcks) : RetryRes :=
  let w := retryEntries acks st [] [] st.inflight_out
  match w.2.2.2 with
  | none =>
      ⟨w.2.2.1.foldl (fun s p => { s with inflight_out := aerase s.inflight_out p }) w.1,
        w.2.1, w.2.2.1, none⟩
  | some o => ⟨w.1, w.2.1, w.2.2.1, some o⟩

/-- Packet id carried by a packet (`variable_header.packet_id`). -/
def MPacket.pid : MPacket → Nat
  | .publish p _ _ _ _ _ => p.getD 0
  | .puback p => p
  | .pubrec p => p
  | .pubrel p => p
  | .pubcomp p => p

/-- `handle_puback` (handler.py lines 462-470): look the waiter up by packet
id and `set_result` it; KeyError (no waiter) and InvalidStateError (waiter
already done) are caught and only logged. -/
def handle_puback (st : HandlerState) (pkt : MPacket) : HandlerState :=
  match alookup st.puback_waiters pkt.pid with
  | some .pending =>
      { st with puback_waiters := ainsert st.puback_waiters pkt.pid (.done pkt) }
  | some (.done _) => st
  | none => st

/-- `handle_pubrec` (handler.py lines 473-481), same shape. -/
def handle_pubrec (st : HandlerState) (pkt : MPacket) : HandlerState :=
  match alookup st.pubrec_waiters pkt.pid with
  | some .pending =>
      { st with pubrec_waiters := ainsert st.pubrec_waiters pkt.pid (.done pkt) }
  | some (.done _) => st
  | none => st

/-- `handle_pubrel` (handler.py lines 495-503), same shape. -/
def handle_pubrel (st : HandlerState) (pkt : MPacket) : HandlerState :=
  match alookup st.pubrel_waiters pkt.pid with
  | some .pending =>
      { st with pubrel_waiters := ainsert st.pubrel_waiters pkt.pid (.done pkt) }
  | some (.done _) => st
  | none => st

/-- `handle_pubcomp` (handler.py lines 484-492), same shape. -/
def handle_pubcomp (st : HandlerState) (pkt : MPacket) : HandlerState :=
  match alookup st.pubcomp_waiters pkt.pid with
  | some .pending =>
      { st with pubcomp_waiters := ainsert st.pubcomp_waiters pkt.pid (.done pkt) }
  | some (.done _) => st
  | none => st

/-- Modelled from the spec: session.py's
`IncomingApplicationMessage.acknowledge_delivery` (session.py is not under
src/).  Spec section 6: it informs the session that the application has
consumed the message - pure housekeeping, recorded as a flag. -/
def acknowledge_delivery (m : IncomingApplicationMessage) :
    IncomingApplicationMessage :=
  { m with delivery_acknowledged := true }

/-- `mqtt_acknowledge_delivery` (handler.py lines 407-413): look the message
up in inflight_in and mark it; KeyError is caught and ignored. -/
def mqtt_acknowledge_delivery (st : HandlerState) (packet_id : Nat) :
    HandlerState :=
  match alookup st.inflight_in packet_id with
  | none => st
  | some m =>
      { st with inflight_in := ainsert st.inflight_in packet_id (acknowledge_delivery m) }

/-! ### The reader loop

MQTT 3.1.1 control packet type codes (hbmqtt/mqtt/packet.py, not under src/;
the values are fixed by the MQTT 3.1.1 wire protocol the spec names). -/

def RESERVED_0 : Nat := 0
def CONNECT : Nat := 1
def CONNACK : Nat := 2
def PUBLISH : Nat := 3
def PUBACK : Nat := 4
def PUBREC : Nat := 5
def PUBREL : Nat := 6
def PUBCOMP : Nat := 7
def SUBSCRIBE : Nat := 8
def SUBACK : Nat := 9
def UNSUBSCRIBE : Nat := 10
def UNSUBACK : Nat := 11
def PINGREQ : Nat := 12
def PINGRESP : Nat := 13
def DISCONNECT : Nat := 14
def RESERVED_15 : Nat := 15

/-- How `_reader_loop` runs the handler for one decoded packet. -/
inductive DispatchMode where
  | spawned    -- asyncio.ensure_future(...), task appended to running_tasks
  | inline     -- handler invoked in the loop body, no task created
  | unhandled  -- logged as an unhandled packet type
deriving DecidableEq, Repr

/-- The dispatch chain of `_reader_loop` (handler.py lines 328-359), in
source order: every recognized packet type is wrapped in
`asyncio.ensure_future` except CONNECT, whose handler is called inline. -/
def dispatchMode (t : Nat) : DispatchMode :=
  if t = CONNACK then .spawned
  else if t = SUBSCRIBE then .spawned
  else if t = UNSUBSCRIBE then .spawned
  else if t = SUBACK then .spawned
  else if t = UNSUBACK then .spawned
  else if t = PUBACK then .spawned
  else if t = PUBREC then .spawned
  else if t = PUBREL then .spawned
  else if t = PUBCOMP then .spawned
  else if t = PINGREQ then .spawned
  else if t = PINGRESP then .spawned
  else if t = PUBLISH then .spawned
  else if t = DISCONNECT then .spawned
  else if t = CONNECT then .inline
  else .unhandled

/-- What one `_reader_loop` iteration can observe: a decoded frame with the
given packet type, end of stream, a keep-alive read timeout, a
NoDataException, task cancellation, or any other exception. -/
inductive RLEvent where
  | frame (ptype : Nat)
  | eof
  | rtimeout
  | nodata
  | cancel
  | exn
deriving DecidableEq, Repr

/-- Externally visible actions of `_reader_loop`. -/
inductive RLAction where
  | closedHandled          -- yield from self.handle_connection_closed()
  | dispatched (ptype : Nat)  -- per-type handler scheduled or invoked
  | readTimeoutHandled     -- self.handle_read_timeout()
  | stoppedSet             -- self._reader_stopped.set()
deriving DecidableEq, Repr

/-- `_reader_loop` (handler.py lines 302-380) over a list of read events; an
exhausted list means the loop is still blocked in the next read.  A reserved
packet type (0 or 15) runs `handle_connection_closed` and the loop
continues; end of stream, cancellation and unexpected exceptions break out
of the loop, after which `handle_connection_closed` runs and
`_reader_stopped` is set. -/
def readerLoop : List RLEvent → List RLAction
  | [] => []
  | e :: rest =>
    match e with
    | .frame t =>
        if t = RESERVED_0 ∨ t = RESERVED_15 then
          RLAction.closedHandled :: readerLoop rest
        else
          RLAction.dispatched t :: readerLoop rest
    | .eof => [RLAction.closedHandled, RLAction.stoppedSet]
    | .cancel => [RLAction.closedHandled, RLAction.stoppedSet]
    | .exn => [RLAction.closedHandled, RLAction.stoppedSet]
    | .rtimeout => RLAction.readTimeoutHandled :: readerLoop rest
    | .nodata => readerLoop rest

/-! ### Association-list lemmas -/

theorem alookup_ainsert_self (l : List (Nat × α)) (k : Nat) (v : α) :
    alookup (ainsert l k v) k = some v := by
  induction l with
  | nil => simp [ainsert, alookup]
  | cons e rest ih =>
      obtain ⟨k', v'⟩ := e
      by_cases h : k' = k
      · subst h; simp [ainsert, alookup]
      · simp [ainsert, alookup, h, ih]

theorem alookup_ainsert_ne (l : List (Nat × α)) (k q : Nat) (v : α)
    (h : q ≠ k) : alookup (ainsert l k v) q = alookup l q := by
  induction l with
  | nil => simp [ainsert, alookup, Ne.symm h]
  | cons e rest ih =>
      obtain ⟨k', v'⟩ := e
      by_cases hk : k' = k
      · subst hk; simp [ainsert, alookup, Ne.symm h]
      · simp [ainsert, alookup, hk, ih]

theorem amem_ainsert_self (l : List (Nat × α)) (k : Nat) (v : α) :
    amem (ainsert l k v) k = true := by
  simp [amem, alookup_ainsert_self]

theorem aerase_ainsert_self (l : List (Nat × α)) (k : Nat) (v : α) :
    aerase (ainsert l k v) k = aerase l k := by
  induction l with
  | nil => simp [ainsert, aerase]
  | cons e rest ih =>
      obtain ⟨k', v'⟩ := e
      by_cases h : k' = k
      · subst h; simp [ainsert, aerase]
      · simp [ainsert, aerase, h, ih]

theorem acount_ainsert (l : List (Nat × α)) (k : Nat) (v : α) :
    acount (ainsert l k v) k = if amem l k then acount l k else acount l k + 1 := by
  induction l with
  | nil => simp [ainsert, acount, amem, alookup]
  | cons e rest ih =>
      obtain ⟨k', v'⟩ := e
      by_cases h : k' = k
      · subst h; simp [ainsert, acount, amem, alookup]
      · simp [ainsert, acount, amem, alookup, h, ih]

theorem one_le_acount_of_amem (l : List (Nat × α)) (k : Nat)
    (h : amem l k = true) : 1 ≤ acount l k := by
  induction l with
  | nil => simp [amem, alookup] at h
  | cons e rest ih =>
      obtain ⟨k', v'⟩ := e
      by_cases hk : k' = k
      · subst hk; simp [acount]
      · have h' : amem rest k = true := by simpa [amem, alookup, hk] using h
        simpa [acount, hk] using ih h'

theorem acount_eq_zero_of_not_amem (l : List (Nat × α)) (k : Nat)
    (h : amem l k = false) : acount l k = 0 := by
  induction l with
  | nil => simp [acount]
  | cons e rest ih =>
      obtain ⟨k', v'⟩ := e
      by_cases hk : k' = k
      · subst hk; simp [amem, alookup] at h
      · have h' : amem rest k = false := by simpa [amem, alookup, hk] using h
        simpa [acount, hk] using ih h'

/-- Event `a` occurs strictly before event `b` in the trace. -/
def precedes (a b : Ev) (tr : List Ev) : Prop :=
  ∃ i j, i < j ∧ tr.get? i = some a ∧ tr.get? j = some b

/-! ### Claim theorems -/

/-- Claim C1, counterexample: the claim says acknowledgement packets such as
PUBACK are handled synchronously within the loop without spawning a task,
and that flow-initiating packets such as CONNECT are spawned.  In the
dispatch chain of `_reader_loop` the PUBACK handler is wrapped in
`asyncio.ensure_future` (a spawned task), and the CONNECT handler is the
only one invoked inline. -/
theorem puback_spawned_connect_inline_cex :
    dispatchMode PUBACK = DispatchMode.spawned ∧
    dispatchMode PUBACK ≠ DispatchMode.inline ∧
    dispatchMode CONNECT = DispatchMode.inline ∧
    dispatchMode CONNECT ≠ DispatchMode.spawned := by decide

/-- Claim C1, amended: the reader loop spawns an independent task for every
recognized packet type - the acknowledgement packets PUBACK, PUBREC,
PUBREL, PUBCOMP, SUBACK, UNSUBACK, CONNACK, PINGRESP included - except
CONNECT, whose handler is invoked inline in the loop without a task. -/
theorem reader_dispatch_spawns_all_but_connect :
    dispatchMode CONNACK = DispatchMode.spawned ∧
    dispatchMode SUBSCRIBE = DispatchMode.spawned ∧
    dispatchMode UNSUBSCRIBE = DispatchMode.spawned ∧
    dispatchMode SUBACK = DispatchMode.spawned ∧
    dispatchMode UNSUBACK = DispatchMode.spawned ∧
    dispatchMode PUBACK = DispatchMode.spawned ∧
    dispatchMode PUBREC = DispatchMode.spawned ∧
    dispatchMode PUBREL = DispatchMode.spawned ∧
    dispatchMode PUBCOMP = DispatchMode.spawned ∧
    dispatchMode PINGREQ = DispatchMode.spawned ∧
    dispatchMode PINGRESP = DispatchMode.spawned ∧
    dispatchMode PUBLISH = DispatchMode.spawned ∧
    dispatchMode DISCONNECT = DispatchMode.spawned ∧
    dispatchMode CONNECT = DispatchMode.inline := by decide

/-- Claim C2: evaluating `_reader_loop` at the failing input.  After a frame
with reserved packet type 0 the loop runs `handle_connection_closed` but
does not exit: it reads and dispatches the following PINGRESP frame, and
`_reader_stopped` is never set while input keeps arriving.  (For contrast,
an end of stream does exit the loop and set `_reader_stopped`.) -/
theorem reserved_packet_type_keeps_reading :
    readerLoop [RLEvent.frame 0, RLEvent.frame 13] =
      [RLAction.closedHandled, RLAction.dispatched 13] ∧
    RLAction.stoppedSet ∉ readerLoop [RLEvent.frame 0, RLEvent.frame 13] ∧
    readerLoop [RLEvent.frame 0, RLEvent.eof] =
      [RLAction.closedHandled, RLAction.closedHandled, RLAction.stoppedSet] := by
  decide

/-- Claim C7: an incoming QoS-0 PUBLISH with the DUP flag set is dropped -
the state is untouched and nothing is enqueued - while one with DUP clear
is enqueued directly onto the delivered-message queue, with no inflight_in
entry created and no packet sent. -/
theorem qos0_incoming_dup_dropped_clear_enqueued
    (st : HandlerState) (topic : String) (payload : List Nat) (retain : Bool) :
    (handle_publish st (.publish none topic payload 0 true retain) noArrive).st = st ∧
    (handle_publish st (.publish none topic payload 0 true retain) noArrive).tr = [] ∧
    (handle_publish st (.publish none topic payload 0 false retain) noArrive).st.delivered_message_queue
      = st.delivered_message_queue ++ [incomingOf (.publish none topic payload 0 false retain)] ∧
    (handle_publish st (.publish none topic payload 0 false retain) noArrive).st.inflight_in
      = st.inflight_in ∧
    (∀ p : MPacket,
      Ev.send p ∉ (handle_publish st (.publish none topic payload 0 false retain) noArrive).tr) := by
  simp [handle_publish, handle_message_flow_in, incomingOf, qos0InFlow, msgDupFlag, noArrive]

/-- Claim C9: each acknowledgement handler (`handle_puback`,
`handle_pubrec`, `handle_pubrel`, `handle_pubcomp`) is total (the KeyError
and InvalidStateError are caught), and both when no waiter is registered
for the packet id and when the waiter is already completed, the packet is
only logged: the state - inflight maps, waiter registries,
delivered-message queue - is returned unchanged. -/
theorem ack_handlers_discard_unknown_and_stale
    (st : HandlerState) (pid : Nat) (q : MPacket) :
    (alookup st.puback_waiters pid = none → handle_puback st (.puback pid) = st) ∧
    (alookup st.puback_waiters pid = some (.done q) → handle_puback st (.puback pid) = st) ∧
    (alookup st.pubrec_waiters pid = none → handle_pubrec st (.pubrec pid) = st) ∧
    (alookup st.pubrec_waiters pid = some (.done q) → handle_pubrec st (.pubrec pid) = st) ∧
    (alookup st.pubrel_waiters pid = none → handle_pubrel st (.pubrel pid) = st) ∧
    (alookup st.pubrel_waiters pid = some (.done q) → handle_pubrel st (.pubrel pid) = st) ∧
    (alookup st.pubcomp_waiters pid = none → handle_pubcomp st (.pubcomp pid) = st) ∧
    (alookup st.pubcomp_waiters pid = some (.done q) → handle_pubcomp st (.pubcomp pid) = st) := by
  refine ⟨?_, ?_, ?_, ?_, ?_, ?_, ?_, ?_⟩ <;> intro h <;>
    simp [handle_puback, handle_pubrec, handle_pubrel, handle_pubcomp, MPacket.pid, h]

/-- Claim C9, witness: applying the theorem at a concrete state holding no
PUBACK waiter for id 5 and an already-completed PUBREC waiter for id 5. -/
theorem ack_handlers_discard_unknown_and_stale_witness :
    handle_puback ⟨[], [], [], 0, [], [(5, Waiter.done (MPacket.pubrec 5))], [], []⟩
      (MPacket.puback 5) =
      ⟨[], [], [], 0, [], [(5, Waiter.done (MPacket.pubrec 5))], [], []⟩ ∧
    handle_pubrec ⟨[], [], [], 0, [], [(5, Waiter.done (MPacket.pubrec 5))], [], []⟩
      (MPacket.pubrec 5) =
      ⟨[], [], [], 0, [], [(5, Waiter.done (MPacket.pubrec 5))], [], []⟩ :=
  ⟨(ack_handlers_discard_unknown_and_stale
      ⟨[], [], [], 0, [], [(5, Waiter.done (MPacket.pubrec 5))], [], []⟩ 5
      (MPacket.pubrec 5)).1 (by decide),
   (ack_handlers_discard_unknown_and_stale
      ⟨[], [], [], 0, [], [(5, Waiter.done (MPacket.pubrec 5))], [], []⟩ 5
      (MPacket.pubrec 5)).2.2.2.1 (by decide)⟩

/-- Claim C10: `mqtt_acknowledge_delivery` with a packet id absent from
inflight_in returns with the state unchanged (the KeyError is swallowed);
with the id present it only replaces that entry by the same message with
its delivery marked acknowledged - every other state component, and every
other inflight_in entry, is unchanged. -/
theorem acknowledge_delivery_marks_or_noops (st : HandlerState) (pid : Nat) :
    (alookup st.inflight_in pid = none → mqtt_acknowledge_delivery st pid = st) ∧
    (∀ m, alookup st.inflight_in pid = some m →
      (mqtt_acknowledge_delivery st pid).inflight_out = st.inflight_out ∧
      (mqtt_acknowledge_delivery st pid).delivered_message_queue = st.delivered_message_queue ∧
      (mqtt_acknowledge_delivery st pid).next_packet_id = st.next_packet_id ∧
      (mqtt_acknowledge_delivery st pid).puback_waiters = st.puback_waiters ∧
      (mqtt_acknowledge_delivery st pid).pubrec_waiters = st.pubrec_waiters ∧
      (mqtt_acknowledge_delivery st pid).pubrel_waiters = st.pubrel_waiters ∧
      (mqtt_acknowledge_delivery st pid).pubcomp_waiters = st.pubcomp_waiters ∧
      alookup (mqtt_acknowledge_delivery st pid).inflight_in pid =
        some { m with delivery_acknowledged := true } ∧
      (∀ k, k ≠ pid →
        alookup (mqtt_acknowledge_delivery st pid).inflight_in k = alookup st.inflight_in k)) := by
  constructor
  · intro h; simp [mqtt_acknowledge_delivery, h]
  · intro m h
    refine ⟨?_, ?_, ?_, ?_, ?_, ?_, ?_, ?_, ?_⟩ <;>
      simp [mqtt_acknowledge_delivery, h, acknowledge_delivery,
        alookup_ainsert_self]
    intro k hk
    simp [alookup_ainsert_ne _ _ _ _ hk]

/-- Claim C10, witness: a state whose inflight_in holds ids 3 and 4; the
call for id 9 is a no-op and the call for id 3 marks exactly that entry. -/
theorem acknowledge_delivery_marks_or_noops_witness :
    mqtt_acknowledge_delivery
      ⟨[], [(3, { packet_id := some 3, topic := "t", qos := 2, data := [], retain := false })],
        [], 0, [], [], [], []⟩ 9 =
      ⟨[], [(3, { packet_id := some 3, topic := "t", qos := 2, data := [], retain := false })],
        [], 0, [], [], [], []⟩ ∧
    alookup (mqtt_acknowledge_delivery
      ⟨[], [(3, { packet_id := some 3, topic := "t", qos := 2, data := [], retain := false })],
        [], 0, [], [], [], []⟩ 3).inflight_in 3 =
      some { packet_id := some 3, topic := "t", qos := 2, data := [], retain := false,
             delivery_acknowledged := true } :=
  ⟨(acknowledge_delivery_marks_or_noops
      ⟨[], [(3, { packet_id := some 3, topic := "t", qos := 2, data := [], retain := false })],
        [], 0, [], [], [], []⟩ 9).1 (by decide),
   ((acknowledge_delivery_marks_or_noops
      ⟨[], [(3, { packet_id := some 3, topic := "t", qos := 2, data := [], retain := false })],
        [], 0, [], [], [], []⟩ 3).2
      { packet_id := some 3, topic := "t", qos := 2, data := [], retain := false }
      (by decide)).2.2.2.2.2.2.2.1⟩

/-- Claim C3: when no acknowledgement arrives within the `asyncio.wait_for`
bound (hard-coded 10 seconds), `mqtt_publish` at QoS 1 or 2 fails with a
timeout error and the inflight_out entry for the allocated packet id is
still in place, ready for `retry_deliveries` to resume it. -/
theorem publish_timeout_retains_inflight
    (io : List (Nat × OutgoingApplicationMessage))
    (ii : List (Nat × IncomingApplicationMessage))
    (q : List IncomingApplicationMessage) (c : Nat)
    (pw rw lw cw : List (Nat × Waiter))
    (topic : String) (payload : List Nat) (retain : Bool) (qos : Nat)
    (hq : qos = 1 ∨ qos = 2)
    (hfree : amem io (nextPacketIdValue c) = false)
    (hrw : amem rw (nextPacketIdValue c) = false) :
    (mqtt_publish ⟨io, ii, q, c, pw, rw, lw, cw⟩ topic payload qos retain noArrive).result
      = PublishOutcome.timedOut ∧
    amem (mqtt_publish ⟨io, ii, q, c, pw, rw, lw, cw⟩ topic payload qos retain noArrive).st.inflight_out
      (nextPacketIdValue c) = true ∧
    publishOverallTimeoutSeconds = 10 := by
  rcases hq with hq | hq <;> subst hq
  · simp [mqtt_publish, handle_message_flow_out, qos1OutFlow, setOut, noArrive,
      hfree, amem_ainsert_self, publishOverallTimeoutSeconds]
  · simp [mqtt_publish, handle_message_flow_out, qos2OutFlow, setOut, noArrive,
      hfree, hrw, amem_ainsert_self, publishOverallTimeoutSeconds]

/-- Claim C3, witness: publishing at QoS 1 from an empty session with no
acknowledgement arriving times out and id 1 stays inflight. -/
theorem publish_timeout_retains_inflight_witness :
    (mqtt_publish ⟨[], [], [], 0, [], [], [], []⟩ "t" [] 1 false noArrive).result
      = PublishOutcome.timedOut ∧
    amem (mqtt_publish ⟨[], [], [], 0, [], [], [], []⟩ "t" [] 1 false noArrive).st.inflight_out
      (nextPacketIdValue 0) = true ∧
    publishOverallTimeoutSeconds = 10 :=
  publish_timeout_retains_inflight [] [] [] 0 [] [] [] [] "t" [] false 1
    (Or.inl rfl) (by decide) (by decide)

/-- A state whose PUBACK waiter registry already holds a (completed) waiter
for packet id 1, and a fresh outgoing QoS-1 message with that id. -/
def c4State : HandlerState :=
  ⟨[], [], [], 0, [(1, Waiter.done (MPacket.puback 1))], [], [], []⟩

def c4Msg : OutgoingApplicationMessage :=
  { packet_id := some 1, topic := "t", qos := 1, data := [], retain := false }

/-- Claim C4, counterexample: with a PUBACK waiter already registered for
packet id 1, the QoS-1 flow does not raise: it runs to its suspension
point, silently replacing the existing waiter with the new pending one. -/
theorem qos1_puback_waiter_no_fail_fast_cex :
    (qos1OutFlow c4State c4Msg none).out = FlowOutcome.interrupted AckKind.puback 1 ∧
    (qos1OutFlow c4State c4Msg none).out.isRaised = false ∧
    alookup (qos1OutFlow c4State c4Msg none).st.puback_waiters 1 = some Waiter.pending := by
  decide

/-- Claim C4, amended: registration of the PUBACK waiter does not fail fast
when a waiter already exists - unlike the PUBREC and PUBREL registrations,
the QoS-1 flow stores its waiter unconditionally, replacing any existing
one - so after registration the registry holds exactly one waiter for the
(packet id, PUBACK) pair, which is the new pending one. -/
theorem qos1_puback_waiter_overwritten
    (st : HandlerState) (m : OutgoingApplicationMessage) (pid : Nat)
    (h1 : m.packet_id = some pid) (h2 : m.puback_packet = none)
    (h3 : acount st.puback_waiters pid ≤ 1) :
    (qos1OutFlow st m none).out = FlowOutcome.interrupted AckKind.puback pid ∧
    (qos1OutFlow st m none).out.isRaised = false ∧
    alookup (qos1OutFlow st m none).st.puback_waiters pid = some Waiter.pending ∧
    acount (qos1OutFlow st m none).st.puback_waiters pid = 1 := by
  have hw : ∀ v : Waiter, acount (ainsert st.puback_waiters pid v) pid = 1 := by
    intro v
    rw [acount_ainsert]
    cases hm : amem st.puback_waiters pid with
    | false =>
        have h0 := acount_eq_zero_of_not_amem st.puback_waiters pid hm
        simp [hm, h0]
    | true =>
        have hge := one_le_acount_of_amem st.puback_waiters pid hm
        simp [hm]
        omega
  by_cases hmem : amem st.inflight_out pid <;>
    simp [qos1OutFlow, h1, h2, hmem, setOut, FlowOutcome.isRaised,
      alookup_ainsert_self, hw]

/-- Claim C4, witness for the amended statement, at the counterexample
state. -/
theorem qos1_puback_waiter_overwritten_witness :
    (qos1OutFlow c4State c4Msg none).out = FlowOutcome.interrupted AckKind.puback 1 ∧
    (qos1OutFlow c4State c4Msg none).out.isRaised = false ∧
    alookup (qos1OutFlow c4State c4Msg none).st.puback_waiters 1 = some Waiter.pending ∧
    acount (qos1OutFlow c4State c4Msg none).st.puback_waiters 1 = 1 :=
  qos1_puback_waiter_overwritten c4State c4Msg 1 rfl rfl (by decide)

/-- A session with packet id 1 already in flight and the allocator counter
about to hand out id 1 again. -/
def c6State : HandlerState :=
  ⟨[(1, { packet_id := some 1, topic := "t", qos := 1, data := [], retain := false })],
    [], [], 0, [], [], [], []⟩

/-- Claim C6, counterexample: when the allocated packet id is already
inflight the call does fail and sends nothing, but the resulting state is
not equal to the starting state - reading the allocator advanced the
monotonic packet-id counter - so "no session state is changed" does not
hold literally. -/
theorem publish_duplicate_packet_id_cex :
    (mqtt_publish c6State "u" [] 1 false noArrive).result
      = PublishOutcome.err FlowErr.duplicatePacketId ∧
    (mqtt_publish c6State "u" [] 1 false noArrive).tr = [] ∧
    (mqtt_publish c6State "u" [] 1 false noArrive).st ≠ c6State ∧
    (mqtt_publish c6State "u" [] 1 false noArrive).st.next_packet_id ≠
      c6State.next_packet_id := by
  decide

/-- Claim C6, amended: `mqtt_publish` at QoS 1/2 whose allocated packet id
is already inflight fails with an error reported to the caller before
building or sending anything: no packet is sent and the inflight maps, the
delivered-message queue and all four waiter registries - in particular the
existing in-flight entry and its flow - are unchanged; the only state
change of the failing call is the advance of the packet-id allocator
counter. -/
theorem publish_duplicate_reports_error_leaves_flow_untouched
    (io : List (Nat × OutgoingApplicationMessage))
    (ii : List (Nat × IncomingApplicationMessage))
    (q : List IncomingApplicationMessage) (c : Nat)
    (pw rw lw cw : List (Nat × Waiter))
    (topic : String) (payload : List Nat) (retain : Bool) (qos : Nat)
    (hq : qos = 1 ∨ qos = 2)
    (hdup : amem io (nextPacketIdValue c) = true) :
    (mqtt_publish ⟨io, ii, q, c, pw, rw, lw, cw⟩ topic payload qos retain noArrive).result
      = PublishOutcome.err FlowErr.duplicatePacketId ∧
    (mqtt_publish ⟨io, ii, q, c, pw, rw, lw, cw⟩ topic payload qos retain noArrive).tr = [] ∧
    (mqtt_publish ⟨io, ii, q, c, pw, rw, lw, cw⟩ topic payload qos retain noArrive).st =
      ⟨io, ii, q, nextPacketIdValue c, pw, rw, lw, cw⟩ := by
  rcases hq with hq | hq <;> subst hq <;> simp [mqtt_publish, hdup]

/-- Claim C6, witness for the amended statement. -/
theorem publish_duplicate_reports_error_leaves_flow_untouched_witness :
    (mqtt_publish c6State "u" [] 1 false noArrive).result
      = PublishOutcome.err FlowErr.duplicatePacketId ∧
    (mqtt_publish c6State "u" [] 1 false noArrive).tr = [] ∧
    (mqtt_publish c6State "u" [] 1 false noArrive).st =
      ⟨[(1, { packet_id := some 1, topic := "t", qos := 1, data := [], retain := false })],
        [], [], nextPacketIdValue 0, [], [], [], []⟩ :=
  publish_duplicate_reports_error_leaves_flow_untouched
    [(1, { packet_id := some 1, topic := "t", qos := 1, data := [], retain := false })]
    [] [] 0 [] [] [] [] "u" [] false 1 (Or.inl rfl) (by decide)

/-- Claim C8: for an incoming QoS-1 PUBLISH the enqueue onto the
delivered-message queue precedes the PUBACK send; for an incoming QoS-2
PUBLISH (whose PUBREL arrives) the enqueue happens after the PUBREL is
observed and before the PUBCOMP is sent, and the inflight_in entry is
removed inside that same window - afterwards the entry is gone from
inflight_in. -/
theorem incoming_enqueue_ordering
    (st : HandlerState) (topic : String) (payload : List Nat) (pid : Nat)
    (retain dup : Bool)
    (hrel : amem st.pubrel_waiters pid = false) :
    precedes (Ev.enqueue (some pid)) (Ev.send (MPacket.puback pid))
      (handle_publish st (.publish (some pid) topic payload 1 dup retain) noArrive).tr ∧
    precedes (Ev.ackReceived (MPacket.pubrel pid)) (Ev.enqueue (some pid))
      (handle_publish st (.publish (some pid) topic payload 2 dup retain)
        { pubrel := some (MPacket.pubrel pid) }).tr ∧
    precedes (Ev.enqueue (some pid)) (Ev.send (MPacket.pubcomp pid))
      (handle_publish st (.publish (some pid) topic payload 2 dup retain)
        { pubrel := some (MPacket.pubrel pid) }).tr ∧
    precedes (Ev.ackReceived (MPacket.pubrel pid)) (Ev.inflightInRemoved pid)
      (handle_publish st (.publish (some pid) topic payload 2 dup retain)
        { pubrel := some (MPacket.pubrel pid) }).tr ∧
    precedes (Ev.inflightInRemoved pid) (Ev.send (MPacket.pubcomp pid))
      (handle_publish st (.publish (some pid) topic payload 2 dup retain)
        { pubrel := some (MPacket.pubrel pid) }).tr ∧
    (handle_publish st (.publish (some pid) topic payload 2 dup retain)
        { pubrel := some (MPacket.pubrel pid) }).st.inflight_in
      = aerase st.inflight_in pid := by
  have h1 : (handle_publish st (.publish (some pid) topic payload 1 dup retain) noArrive).tr
      = [Ev.enqueue (some pid), Ev.send (MPacket.puback pid)] := by
    simp [handle_publish, handle_message_flow_in, incomingOf, qos1InFlow, noArrive]
  have h2 : (handle_publish st (.publish (some pid) topic payload 2 dup retain)
        { pubrel := some (MPacket.pubrel pid) }).tr
      = [Ev.send (MPacket.pubrec pid), Ev.ackReceived (MPacket.pubrel pid),
         Ev.enqueue (some pid), Ev.inflightInRemoved pid,
         Ev.send (MPacket.pubcomp pid)] := by
    simp [handle_publish, handle_message_flow_in, incomingOf, qos2InFlow, hrel]
  have h3 : (handle_publish st (.publish (some pid) topic payload 2 dup retain)
        { pubrel := some (MPacket.pubrel pid) }).st.inflight_in
      = aerase st.inflight_in pid := by
    simp [handle_publish, handle_message_flow_in, incomingOf, qos2InFlow, hrel,
      aerase_ainsert_self]
  refine ⟨?_, ?_, ?_, ?_, ?_, h3⟩
  · rw [h1]; exact ⟨0, 1, by omega, rfl, rfl⟩
  · rw [h2]; exact ⟨1, 2, by omega, rfl, rfl⟩
  · rw [h2]; exact ⟨2, 4, by omega, rfl, rfl⟩
  · rw [h2]; exact ⟨1, 3, by omega, rfl, rfl⟩
  · rw [h2]; exact ⟨3, 4, by omega, rfl, rfl⟩

/-- Claim C8, witness: the orderings at a concrete empty session, packet id
9. -/
theorem incoming_enqueue_ordering_witness :
    precedes (Ev.enqueue (some 9)) (Ev.send (MPacket.puback 9))
      (handle_publish ⟨[], [], [], 0, [], [], [], []⟩
        (.publish (some 9) "t" [] 1 false false) noArrive).tr ∧
    precedes (Ev.ackReceived (MPacket.pubrel 9)) (Ev.enqueue (some 9))
      (handle_publish ⟨[], [], [], 0, [], [], [], []⟩
        (.publish (some 9) "t" [] 2 false false)
        { pubrel := some (MPacket.pubrel 9) }).tr ∧
    precedes (Ev.enqueue (some 9)) (Ev.send (MPacket.pubcomp 9))
      (handle_publish ⟨[], [], [], 0, [], [], [], []⟩
        (.publish (some 9) "t" [] 2 false false)
        { pubrel := some (MPacket.pubrel 9) }).tr ∧
    precedes (Ev.ackReceived (MPacket.pubrel 9)) (Ev.inflightInRemoved 9)
      (handle_publish ⟨[], [], [], 0, [], [], [], []⟩
        (.publish (some 9) "t" [] 2 false false)
        { pubrel := some (MPacket.pubrel 9) }).tr ∧
    precedes (Ev.inflightInRemoved 9) (Ev.send (MPacket.pubcomp 9))
      (handle_publish ⟨[], [], [], 0, [], [], [], []⟩
        (.publish (some 9) "t" [] 2 false false)
        { pubrel := some (MPacket.pubrel 9) }).tr ∧
    (handle_publish ⟨[], [], [], 0, [], [], [], []⟩
        (.publish (some 9) "t" [] 2 false false)
        { pubrel := some (MPacket.pubrel 9) }).st.inflight_in
      = aerase [] 9 :=
  incoming_enqueue_ordering ⟨[], [], [], 0, [], [], [], []⟩ "t" [] 9 false false
    (by decide)

/-- Claim C5: running `retry_deliveries` on a session whose inflight_out
holds one entry, with no acknowledgements arriving yet.  An acknowledged
message is removed from inflight_out and nothing is sent.  A message with
no PUBREC recorded has its PUBLISH rebuilt with DUP=true and resent (the
re-entered flow resends it once more), and the walk is then suspended in
`_handle_message_flow` awaiting the ACK of the current phase - the PUBACK
for QoS 1, the PUBREC for QoS 2 - with the matching waiter registered and
the entry still inflight.  A QoS-2 message with a PUBREC already recorded
resumes directly in phase B: no PUBLISH is resent, the PUBREL is resent
and the walk awaits the PUBCOMP. -/
theorem retry_deliveries_per_entry
    (pid : Nat) (m : OutgoingApplicationMessage) (st : HandlerState) (r : RetryRes)
    (hpid : m.packet_id = some pid)
    (hone : st.inflight_out = [(pid, m)])
    (hrw : amem st.pubrec_waiters pid = false)
    (hr : r = retry_deliveries st (fun _ => noArrive)) :
    (isAcknowledged m = true →
      r.st.inflight_out = [] ∧ r.tr = [] ∧ r.pending = none) ∧
    (isAcknowledged m = false → m.pubrec_packet = none → m.pubrel_packet = none →
      (m.qos = 1 ∨ m.qos = 2) →
      r.tr = [Ev.send (MPacket.publish (some pid) m.topic m.data m.qos true m.retain),
              Ev.send (MPacket.publish (some pid) m.topic m.data m.qos true m.retain)] ∧
      amem r.st.inflight_out pid = true ∧
      (m.qos = 1 →
        r.pending = some (pid, FlowOutcome.interrupted AckKind.puback pid) ∧
        alookup r.st.puback_waiters pid = some Waiter.pending) ∧
      (m.qos = 2 →
        r.pending = some (pid, FlowOutcome.interrupted AckKind.pubrec pid) ∧
        alookup r.st.pubrec_waiters pid = some Waiter.pending)) ∧
    (∀ rp lp, m.qos = 2 → m.pubrec_packet = some rp → m.pubrel_packet = some lp →
      m.pubcomp_packet = none →
      r.tr = [Ev.send (MPacket.pubrel pid)] ∧
      r.pending = some (pid, FlowOutcome.interrupted AckKind.pubcomp pid) ∧
      alookup r.st.pubcomp_waiters pid = some Waiter.pending ∧
      amem r.st.inflight_out pid = true) := by
  subst hr
  refine ⟨?_, ?_, ?_⟩
  · intro hack
    simp [retry_deliveries, retryEntries, hone, hack, alookup, aerase]
  · intro hack hrec hrel hq
    rcases hq with h1 | h2
    · have hpb : m.puback_packet = none := by
        simpa [isAcknowledged, h1] using hack
      simp [retry_deliveries, retryEntries, hone, hack, hrec, hpid, h1,
        handle_message_flow_out, qos1OutFlow, buildPublishPacket, setOut,
        noArrive, hpb, amem, alookup, ainsert, amem_ainsert_self,
        alookup_ainsert_self]
    · have hpc : m.pubcomp_packet = none := by
        simpa [isAcknowledged, h2] using hack
      have hrw' : (alookup st.pubrec_waiters pid).isSome = false := hrw
      simp [retry_deliveries, retryEntries, hone, hack, hrec, hrel, hpid, h2,
        handle_message_flow_out, qos2OutFlow, buildPublishPacket, setOut,
        noArrive, hpc, hrw, hrw', amem, alookup, ainsert, amem_ainsert_self,
        alookup_ainsert_self]
  · intro rp lp h2 hrec hrel hpc
    have hack : isAcknowledged m = false := by simp [isAcknowledged, h2, hpc]
    simp [retry_deliveries, retryEntries, hone, hack, hrec, hrel, hpc, hpid, h2,
      handle_message_flow_out, qos2OutFlow, qos2PhaseB, setOut, noArrive,
      amem, alookup, ainsert, amem_ainsert_self, alookup_ainsert_self]

/-- Claim C5, witness: the three cases at concrete single-entry sessions -
an acknowledged QoS-1 message is removed; an unacknowledged QoS-1 message
with nothing recorded gets its DUP PUBLISH resent and awaits the PUBACK; a
QoS-2 message with PUBREC and PUBREL recorded resends only the PUBREL and
awaits the PUBCOMP. -/
theorem retry_deliveries_per_entry_witness :
    ((retry_deliveries
        ⟨[(7, { packet_id := some 7, topic := "t", qos := 1, data := [], retain := false,
                publish_packet := some (MPacket.publish (some 7) "t" [] 1 false false),
                puback_packet := some (MPacket.puback 7) })],
          [], [], 0, [], [], [], []⟩ (fun _ => noArrive)).st.inflight_out = [] ∧
      (retry_deliveries
        ⟨[(7, { packet_id := some 7, topic := "t", qos := 1, data := [], retain := false,
                publish_packet := some (MPacket.publish (some 7) "t" [] 1 false false),
                puback_packet := some (MPacket.puback 7) })],
          [], [], 0, [], [], [], []⟩ (fun _ => noArrive)).tr = [] ∧
      (retry_deliveries
        ⟨[(7, { packet_id := some 7, topic := "t", qos := 1, data := [], retain := false,
                publish_packet := some (MPacket.publish (some 7) "t" [] 1 false false),
                puback_packet := some (MPacket.puback 7) })],
          [], [], 0, [], [], [], []⟩ (fun _ => noArrive)).pending = none) ∧
    ((retry_deliveries
        ⟨[(8, { packet_id := some 8, topic := "t", qos := 1, data := [], retain := false })],
          [], [], 0, [], [], [], []⟩ (fun _ => noArrive)).tr =
        [Ev.send (MPacket.publish (some 8) "t" [] 1 true false),
         Ev.send (MPacket.publish (some 8) "t" [] 1 true false)] ∧
      (retry_deliveries
        ⟨[(8, { packet_id := some 8, topic := "t", qos := 1, data := [], retain := false })],
          [], [], 0, [], [], [], []⟩ (fun _ => noArrive)).pending =
        some (8, FlowOutcome.interrupted AckKind.puback 8) ∧
      alookup (retry_deliveries
        ⟨[(8, { packet_id := some 8, topic := "t", qos := 1, data := [], retain := false })],
          [], [], 0, [], [], [], []⟩ (fun _ => noArrive)).st.puback_waiters 8 =
        some Waiter.pending) ∧
    ((retry_deliveries
        ⟨[(9, { packet_id := some 9, topic := "t", qos := 2, data := [], retain := false,
                publish_packet := some (MPacket.publish (some 9) "t" [] 2 false false),
                pubrec_packet := some (MPacket.pubrec 9),
                pubrel_packet := some (MPacket.pubrel 9) })],
          [], [], 0, [], [], [], []⟩ (fun _ => noArrive)).tr =
        [Ev.send (MPacket.pubrel 9)] ∧
      (retry_deliveries
        ⟨[(9, { packet_id := some 9, topic := "t", qos := 2, data := [], retain := false,
                publish_packet := some (MPacket.publish (some 9) "t" [] 2 false false),
                pubrec_packet := some (MPacket.pubrec 9),
                pubrel_packet := some (MPacket.pubrel 9) })],
          [], [], 0, [], [], [], []⟩ (fun _ => noArrive)).pending =
        some (9, FlowOutcome.interrupted AckKind.pubcomp 9)) := by
  refine ⟨?_, ?_, ?_⟩
  · exact (retry_deliveries_per_entry 7
      { packet_id := some 7, topic := "t", qos := 1, data := [], retain := false,
        publish_packet := some (MPacket.publish (some 7) "t" [] 1 false false),
        puback_packet := some (MPacket.puback 7) }
      ⟨[(7, { packet_id := some 7, topic := "t", qos := 1, data := [], retain := false,
              publish_packet := some (MPacket.publish (some 7) "t" [] 1 false false),
              puback_packet := some (MPacket.puback 7) })],
        [], [], 0, [], [], [], []⟩ _ rfl rfl (by decide) rfl).1 (by decide)
  · have h := (retry_deliveries_per_entry 8
      { packet_id := some 8, topic := "t", qos := 1, data := [], retain := false }
      ⟨[(8, { packet_id := some 8, topic := "t", qos := 1, data := [], retain := false })],
        [], [], 0, [], [], [], []⟩ _ rfl rfl (by decide) rfl).2.1
      (by decide) rfl rfl (Or.inl rfl)
    exact ⟨h.1, (h.2.2.1 rfl).1, (h.2.2.1 rfl).2⟩
  · have h := (retry_deliveries_per_entry 9
      { packet_id := some 9, topic := "t", qos := 2, data := [], retain := false,
        publish_packet := some (MPacket.publish (some 9) "t" [] 2 false false),
        pubrec_packet := some (MPacket.pubrec 9),
        pubrel_packet := some (MPacket.pubrel 9) }
      ⟨[(9, { packet_id := some 9, topic := "t", qos := 2, data := [], retain := false,
              publish_packet := some (MPacket.publish (some 9) "t" [] 2 false false),
              pubrec_packet := some (MPacket.pubrec 9),
              pubrel_packet := some (MPacket.pubrel 9) })],
        [], [], 0, [], [], [], []⟩ _ rfl rfl (by decide) rfl).2.2
      (MPacket.pubrec 9) (MPacket.pubrel 9) rfl rfl rfl rfl
    exact ⟨h.1, h.2.1⟩
